import Mathlib

/-!
Verification development for the monitor + rule matching + draft generator
pipeline (`monitor_main.py`).

The Python source is shallowly embedded: pure functions become Lean
functions, the cycle loop of `main` becomes a recursive trace-producing
function, exceptions become `Except`, and the BeautifulSoup DOM/CSS layer is
modelled by an explicit HTML node tree with tag/class selector matching
(CSS selector strings are interpreted as `tag.class1.class2` patterns, the
only forms whose semantics the embedded code depends on).
-/

namespace Monitor

/-! ### Python string primitives -/

/-- Python `str.lower()` (ASCII case folding, identity on CJK text). -/
def pyLower (s : String) : String := String.mk (s.data.map Char.toLower)

/-- Split a character list on a separator character (semantics of
`str.split(sep)` for a one-character separator). -/
def splitOnChar (sep : Char) : List Char → List (List Char)
  | [] => [[]]
  | c :: cs =>
    if c = sep then [] :: splitOnChar sep cs
    else
      match splitOnChar sep cs with
      | [] => [[c]]
      | g :: gs => (c :: g) :: gs

/-- ASCII whitespace recognizer for stripping. -/
def isWS (c : Char) : Bool := c == ' ' || c == '\n' || c == '\t' || c == '\r'

/-- Python `str.strip()`. -/
def pyStrip (s : String) : String :=
  String.mk (((s.data.dropWhile isWS).reverse.dropWhile isWS).reverse)

/-- `needle` is a prefix of `hay` (on character lists). -/
def startsWithChars : List Char → List Char → Bool
  | [], _ => true
  | _ :: _, [] => false
  | a :: as, b :: bs => (a == b) && startsWithChars as bs

/-- Python `needle in hay` substring test, on character lists. -/
def containsSubChars (needle : List Char) : List Char → Bool
  | [] => startsWithChars needle []
  | c :: t => startsWithChars needle (c :: t) || containsSubChars needle t

/-- Python `needle in hay` on strings. -/
def pyIn (needle hay : String) : Bool := containsSubChars needle.data hay.data

/-! ### DOM model (BeautifulSoup trees) -/

/-- A parsed HTML node: an element with tag, attributes and children, or a
bare text node. -/
inductive HNode where
  | elem (tag : String) (attrs : List (String × String)) (children : List HNode)
  | textNode (s : String)

/-- `node.get(attr)`: attribute lookup on an element. -/
def HNode.getAttr : HNode → String → Option String
  | .elem _ attrs _, k => (attrs.find? (fun p => p.1 == k)).map (fun p => p.2)
  | .textNode _, _ => none

/-- A simple CSS selector: optional tag name plus required classes. -/
structure Sel where
  tag : Option String
  classes : List String

/-- Interpret a CSS selector string of the form `tag.cls1.cls2`,
`.cls` or `tag`. -/
def selParse (s : String) : Sel :=
  match splitOnChar '.' s.data with
  | [] => { tag := none, classes := [] }
  | t :: cls =>
    { tag := if t = [] then none else some (String.mk t),
      classes := cls.map String.mk }

/-- Whether an element node matches a selector string. -/
def selMatchesNode (s : String) (n : HNode) : Bool :=
  match n with
  | .textNode _ => false
  | .elem tag _ _ =>
    let sel := selParse s
    (match sel.tag with
     | none => true
     | some t => t == tag) &&
    sel.classes.all (fun c =>
      ((splitOnChar ' ' ((HNode.getAttr n "class").getD "").data).map String.mk).contains c)

mutual

/-- All descendants of a node in document (preorder) order, the node
itself included. -/
def HNode.descendants : HNode → List HNode
  | .textNode s => [.textNode s]
  | .elem t a cs => .elem t a cs :: descendantsList cs

/-- Descendants of a forest, in document order. -/
def descendantsList : List HNode → List HNode
  | [] => []
  | n :: ns => n.descendants ++ descendantsList ns

end

/-- `soup.select(sel)`: all matching nodes of the document, in document
order. -/
def selectAll (sel : String) (roots : List HNode) : List HNode :=
  (descendantsList roots).filter (selMatchesNode sel)

/-- `c.select_one(sel)`: the first matching strict descendant of `c`. -/
def selectInside (sel : String) (c : HNode) : Option HNode :=
  match c with
  | .textNode _ => none
  | .elem _ _ children => ((descendantsList children).filter (selMatchesNode sel)).head?

/-- `node.get_text(strip=True)`: concatenation of the stripped text
fragments below the node. -/
def HNode.getText (n : HNode) : String :=
  (n.descendants.filterMap (fun m =>
    match m with
    | .textNode s => some (pyStrip s)
    | .elem _ _ _ => none)).foldl (fun a b => a ++ b) ""

/-! ### Events and the selector extractor -/

/-- A normalized event record (all fields present, as the data model
requires). -/
structure Event where
  id : String
  source : String
  url : String
  title : String
  content : String
  created_at : String
  lang : String
  metadata : List (String × String)

/-- The `selectors` sub-configuration; `none` fields are absent keys, for
which `parse_events_with_selectors` substitutes its documented defaults. -/
structure SelectorsCfg where
  container : Option String := none
  title : Option String := none
  content : Option String := none
  link : Option String := none
  id_attr : Option String := none
  created_at_attr : Option String := none
  lang_attr : Option String := none

/-- The body of the extraction loop of `parse_events_with_selectors`:
build the event for the container `c` at 1-based position `idx`. -/
def eventOfContainer (cfg : SelectorsCfg) (source_name : String) (idx : Nat) (c : HNode) : Event :=
  { id :=
      match c.getAttr (cfg.id_attr.getD "data-id") with
      | some v => if v = "" then source_name ++ "_" ++ toString idx else v
      | none => source_name ++ "_" ++ toString idx,
    source := source_name,
    url :=
      match selectInside (cfg.link.getD "a") c with
      | some lt => (lt.getAttr "href").getD ""
      | none => "",
    title :=
      match selectInside (cfg.title.getD "h2") c with
      | some t => t.getText
      | none => "",
    content :=
      match selectInside (cfg.content.getD "p") c with
      | some t => t.getText
      | none => "",
    created_at := (c.getAttr (cfg.created_at_attr.getD "data-created-at")).getD "",
    lang := (c.getAttr (cfg.lang_attr.getD "data-lang")).getD "en",
    metadata := [] }

/-- `parse_events_with_selectors`: one event per container node, in
document order, ids synthesized from the 1-based position when the id
attribute is absent or empty. The raw-HTML-to-tree step (BeautifulSoup
`html.parser`) is the model boundary: the function receives the parsed
forest. -/
def parse_events_with_selectors (roots : List HNode) (cfg : SelectorsCfg) (source_name : String) : List Event :=
  (List.enumFrom 1 (selectAll (cfg.container.getD "article") roots)).map
    (fun p => eventOfContainer cfg source_name p.1 p.2)

/-! ### Rules and the rule matcher -/

/-- A rule condition (`type`/`field`/`value`/`values` keys of the config). -/
structure Cond where
  ctype : String
  field : String := ""
  value : String := ""
  values : List String := []

/-- A rule (`enabled` defaults to true; absent keys are `none`). -/
structure Rule where
  id : Option String := none
  enabled : Bool := true
  conditions : List Cond := []
  template : Option String := none
  target_lang : Option String := none

/-- The `text_fields.get(field, "").lower()` lookup of `rule_matches`. -/
def eventText (e : Event) (field : String) : String :=
  pyLower
    (if field = "title" then pyLower e.title
     else if field = "content" then pyLower e.content
     else if field = "source" then pyLower e.source
     else "")

/-- One iteration of the condition loop of `rule_matches`: whether the
condition succeeds (an unrecognized `type` fails). -/
def condHolds (e : Event) (cond : Cond) : Bool :=
  let text := eventText e cond.field
  if cond.ctype = "contains" then pyIn (pyLower cond.value) text
  else if cond.ctype = "contains_any" then cond.values.any (fun v => pyIn (pyLower v) text)
  else if cond.ctype = "equals" then text == pyLower cond.value
  else if cond.ctype = "not_contains_any" then !(cond.values.any (fun v => pyIn (pyLower v) text))
  else false

/-- `rule_matches`: conjunction of the conditions in declared order. -/
def rule_matches (e : Event) (r : Rule) : Bool :=
  r.conditions.all (condHolds e)

/-! ### Python `str.format` and the draft renderer -/

/-- The open-brace character. -/
def braceL : Char := '\x7b'

/-- The close-brace character. -/
def braceR : Char := '\x7d'


mutual

/-- The scanner of Python `str.format` restricted to what the embedded
templates use: `\x7bname\x7d` placeholders looked up in `subst`
(a `KeyError`-style failure when the lookup fails), `\x7b\x7b`/`\x7d\x7d`
escapes, and `ValueError` for an unmatched single brace. -/
def fmtScan (subst : String → Option String) : List Char → Except String (List Char)
  | [] => .ok []
  | c :: cs =>
    if c = braceL then
      match cs with
      | [] => .error "ValueError: Single open brace"
      | c2 :: cs2 =>
        if c2 = braceL then
          match fmtScan subst cs2 with
          | .error e => .error e
          | .ok r => .ok (braceL :: r)
        else fmtScanName subst [] (c2 :: cs2)
    else if c = braceR then
      match cs with
      | [] => .error "ValueError: Single close brace"
      | c2 :: cs2 =>
        if c2 = braceR then
          match fmtScan subst cs2 with
          | .error e => .error e
          | .ok r => .ok (braceR :: r)
        else .error "ValueError: Single close brace"
    else
      match fmtScan subst cs with
      | .error e => .error e
      | .ok r => .ok (c :: r)
termination_by l => l.length

/-- Scanning the chars of a placeholder name (accumulated reversed in
`acc`) up to the closing brace. -/
def fmtScanName (subst : String → Option String) (acc : List Char) : List Char → Except String (List Char)
  | [] => .error "ValueError: Single open brace"
  | c :: cs =>
    if c = braceR then
      match subst (String.mk acc.reverse) with
      | none => .error ("KeyError: " ++ String.mk acc.reverse)
      | some v =>
        match fmtScan subst cs with
        | .error e => .error e
        | .ok r => .ok (v.data ++ r)
    else fmtScanName subst (c :: acc) cs
termination_by l => l.length

end

/-- `tpl.format(...)` with keyword arguments given by `subst`. -/
def pyFormat (tpl : String) (subst : String → Option String) : Except String String :=
  match fmtScan subst tpl.data with
  | .error e => .error e
  | .ok r => .ok (String.mk r)

mutual

/-- The placeholder names referenced by a format string, `none` when the
string is brace-malformed (the same scan as `fmtScan`, collecting names
instead of substituting). -/
def fmtNames : List Char → Option (List String)
  | [] => some []
  | c :: cs =>
    if c = braceL then
      match cs with
      | [] => none
      | c2 :: cs2 =>
        if c2 = braceL then fmtNames cs2
        else fmtNamesAcc [] (c2 :: cs2)
    else if c = braceR then
      match cs with
      | [] => none
      | c2 :: cs2 => if c2 = braceR then fmtNames cs2 else none
    else fmtNames cs
termination_by l => l.length

/-- Name collection inside a placeholder. -/
def fmtNamesAcc (acc : List Char) : List Char → Option (List String)
  | [] => none
  | c :: cs =>
    if c = braceR then (fmtNames cs).map (fun ns => String.mk acc.reverse :: ns)
    else fmtNamesAcc (c :: acc) cs
termination_by l => l.length

end

/-- The keyword arguments passed by `generate_draft` to `tpl.format`. -/
def eventSubst (e : Event) (n : String) : Option String :=
  if n = "title" then some e.title
  else if n = "content" then some e.content
  else if n = "url" then some e.url
  else if n = "source" then some e.source
  else none

/-- The generic fallback greeting template of `generate_draft`. -/
def fallbackTemplate : String := "Hello, saw your post \x27{title}\x27."

/-- Template lookup: `templates.get(template_id)`. -/
def templatesLookup (templates : List (String × String)) (tid : String) : Option String :=
  (templates.find? (fun p => p.1 == tid)).map (fun p => p.2)

/-- A rendered draft. -/
structure Draft where
  event_id : String
  rule_id : Option String
  lang : String
  draft_text : String

/-- `templates.get(template_id, "Hello, saw your post \x27\x7btitle\x7d\x27.")`:
the template string `generate_draft` renders (the generic fallback when
the rule's template id is unknown or absent). -/
def selectedTemplate (r : Rule) (templates : List (String × String)) : String :=
  match r.template with
  | none => fallbackTemplate
  | some tid => (templatesLookup templates tid).getD fallbackTemplate

/-- `generate_draft`: select the rule's template (falling back to the
generic greeting when the id is unknown or absent), render it strictly,
and stamp ids and language. A format error propagates as the Python
exception would. -/
def generate_draft (e : Event) (r : Rule) (templates : List (String × String)) : Except String Draft :=
  match pyFormat (selectedTemplate r templates) (eventSubst e) with
  | .error msg => .error msg
  | .ok txt =>
    .ok { event_id := e.id, rule_id := r.id,
          lang := r.target_lang.getD e.lang, draft_text := txt }

/-! ### Filter stage (the per-event filtering inside `main`) -/

/-- The fixed domain blacklist of `main`. -/
def blacklist : List String :=
  ["acabridge.cn", "editsprings.com", "xueshut.com", "xueshulin.com",
   "100xuexi.com", "xueshubang.org", "163.com", "paperqq.cn", "papernex.cn",
   "paperface.cn", "paperbert.com", "csdnimg.cn", "sohu.com", "qq.com"]

/-- The fixed allow-patterns for URL paths. -/
def keep_patterns : List String :=
  ["/question", "/p/", "/r/", "/tieba.baidu.com/p", "thread"]

/-- The fixed help-seeking keywords for titles. -/
def want_words : List String :=
  ["求助", "帮忙", "怎么办", "怎么写", "question", "help", "降重"]

/-- Split a character list at the first occurrence of `sep`, returning the
part before and the part after it. -/
def splitOnSub (sep : List Char) : List Char → Option (List Char × List Char)
  | [] => if startsWithChars sep [] then some ([], []) else none
  | c :: cs =>
    if startsWithChars sep (c :: cs) then some ([], (c :: cs).drop sep.length)
    else
      match splitOnSub sep cs with
      | some (a, b) => some (c :: a, b)
      | none => none

/-- `urllib.parse.urlparse` restricted to what `main` reads: the
`netloc` and `path` of the given URL string. -/
def urlparseNetlocPath (s : String) : String × String :=
  match splitOnSub "://".data s.data with
  | none => ("", String.mk (s.data.takeWhile (fun c => c != '?' && c != '#')))
  | some (_, rest) =>
    let netloc := rest.takeWhile (fun c => c != '/' && c != '?' && c != '#')
    let after := rest.drop netloc.length
    ((String.mk netloc), String.mk (after.takeWhile (fun c => c != '?' && c != '#')))

/-- `url if url.startswith("http") else "http://" + url`. -/
def normalizeUrl (url : String) : String :=
  if startsWithChars "http".data url.data then url else "http://" ++ url

/-- The lower-cased URL host the filter inspects. -/
def hostOf (ev : Event) : String :=
  pyLower (urlparseNetlocPath (normalizeUrl ev.url)).1

/-- The lower-cased URL path the filter inspects. -/
def pathOf (ev : Event) : String :=
  pyLower (urlparseNetlocPath (normalizeUrl ev.url)).2

/-- The per-event filter of `main`: drop blacklisted hosts, then keep only
events whose path matches an allow pattern or whose title holds a
help-seeking keyword. -/
def passesFilter (ev : Event) : Bool :=
  !(blacklist.any (fun bad => pyIn bad (hostOf ev))) &&
  ((keep_patterns.any (fun pat => pyIn pat (pathOf ev))) ||
   (want_words.any (fun w => pyIn (pyLower w) (pyLower ev.title))))

/-- The brief event record persisted in `events_brief`. -/
structure BriefEvent where
  id : String
  source : String
  title : String
  url : String
  content : String
  metadata : List (String × String)

/-- The projection appended to `events_brief` for a kept event. -/
def briefOf (ev : Event) : BriefEvent :=
  { id := ev.id, source := ev.source, title := ev.title,
    url := ev.url, content := ev.content, metadata := ev.metadata }

/-! ### Match + render inside a cycle -/

/-- The inner rule loop of `main` for one kept event: drafts for the
enabled matching rules, in rule order, together with the number of
`matched_events` increments it performs. A render error propagates. -/
def matchDrafts (e : Event) (templates : List (String × String)) :
    List Rule → Except String (List Draft × Nat)
  | [] => .ok ([], 0)
  | r :: rs =>
    if r.enabled = false then matchDrafts e templates rs
    else if rule_matches e r then
      match generate_draft e r templates with
      | .error msg => .error msg
      | .ok d =>
        match matchDrafts e templates rs with
        | .error msg => .error msg
        | .ok (ds, m) => .ok (d :: ds, m + 1)
    else matchDrafts e templates rs

/-- The event loop of `main`: filter each event, collect `events_brief`,
drafts and the `matched_events` counter. -/
def processEvents (rules : List Rule) (templates : List (String × String)) :
    List Event → Except String (List BriefEvent × List Draft × Nat)
  | [] => .ok ([], [], 0)
  | ev :: rest =>
    if passesFilter ev then
      match matchDrafts ev templates rules with
      | .error msg => .error msg
      | .ok (ds, m) =>
        match processEvents rules templates rest with
        | .error msg => .error msg
        | .ok (bs, ds2, m2) => .ok (briefOf ev :: bs, ds ++ ds2, m + m2)
    else processEvents rules templates rest

/-! ### Cycle scheduler -/

/-- The top-level configuration keys `main` reads (the `source` entry is
abstracted as the fetch function passed to the scheduler). `repeat` is
named `repeatFlag` because `repeat` is reserved in Lean. -/
structure Config where
  language : String := "en"
  rules : List Rule := []
  templates : List (String × String) := []
  repeatFlag : Bool := false
  interval_seconds : Nat := 900
  max_cycles : Nat := 1
  min_matches : Nat := 0

/-- The persisted per-cycle artifact. -/
structure CycleOutput where
  language : String
  cycle : Nat
  total_events : Nat
  matched_events : Nat
  events : List BriefEvent
  drafts : List Draft

/-- Assemble the cycle's output artifact from the fetched events. -/
def cycleOutputOf (cfg : Config) (c : Nat) (events : List Event) :
    Except String CycleOutput :=
  match processEvents cfg.rules cfg.templates events with
  | .error msg => .error msg
  | .ok (bs, ds, m) =>
    .ok { language := cfg.language, cycle := c, total_events := events.length,
          matched_events := m, events := bs, drafts := ds }

/-- Observable scheduler actions: starting a cycle (its fetch attempt),
overwriting the output artifact, and sleeping between cycles. -/
inductive Act where
  | attempt (c : Nat)
  | write (o : CycleOutput)
  | sleep (t : Nat)

/-- The `while True` loop of `main` from a given cycle counter value: the
performed actions plus the propagated exception, if any. A fetch or
render exception ends the run immediately (there is no handler around the
loop body). -/
def runFrom (cfg : Config) (fetchF : Nat → Except String (List Event)) (cycle : Nat) :
    List Act × Option String :=
  let c := cycle + 1
  match fetchF c with
  | .error e => ([Act.attempt c], some e)
  | .ok evs =>
    match cycleOutputOf cfg c evs with
    | .error e => ([Act.attempt c], some e)
    | .ok out =>
      if h : cfg.repeatFlag = false ∨ cfg.max_cycles ≤ c then
        ([Act.attempt c, Act.write out], none)
      else
        let r := runFrom cfg fetchF c
        (Act.attempt c :: Act.write out :: Act.sleep cfg.interval_seconds :: r.1, r.2)
termination_by cfg.max_cycles - cycle
decreasing_by
  push_neg at h
  omega

/-- A whole scheduler run (the loop starts with `cycle = 0`). -/
def runScheduler (cfg : Config) (fetchF : Nat → Except String (List Event)) :
    List Act × Option String :=
  runFrom cfg fetchF 0

/-- The number of cycles a run performs when no exception occurs. -/
def numCycles (cfg : Config) : Nat :=
  if cfg.repeatFlag then max cfg.max_cycles 1 else 1

/-- The expected action trace of an exception-free run over the given
cycle outputs: a fetch attempt and an artifact write per cycle, one sleep
between consecutive cycles. -/
def okTrace (interval : Nat) : List CycleOutput → List Act
  | [] => []
  | [o] => [Act.attempt o.cycle, Act.write o]
  | o :: o2 :: rest =>
    Act.attempt o.cycle :: Act.write o :: Act.sleep interval :: okTrace interval (o2 :: rest)

/-! ### Source adapters -/

/-- Replace the value of key `k` in a metadata dict. -/
def setMeta (ev : Event) (k v : String) : Event :=
  { ev with metadata := (ev.metadata.filter (fun p => p.1 != k)) ++ [(k, v)] }

/-- The `http_html_search` branch of `main`: one GET per query through the
abstract `fetchF` (returning the fetched page as a parsed forest),
substituting the query into the URL template; every failure aborts the
whole fetch. -/
def http_html_search_fetch (fetchF : String → Except String (List HNode))
    (tpl : String) (cfg : SelectorsCfg) (name : String) :
    List String → Except String (List Event)
  | [] => .ok []
  | q :: qs =>
    match pyFormat tpl (fun n => if n = "query" then some q else none) with
    | .error msg => .error msg
    | .ok url =>
      match fetchF url with
      | .error msg => .error msg
      | .ok roots =>
        match http_html_search_fetch fetchF tpl cfg name qs with
        | .error msg => .error msg
        | .ok rest =>
          .ok (((parse_events_with_selectors roots cfg name).map
                 (fun ev => setMeta ev "query" q)) ++ rest)

/-- The site-to-domain table of `duckduckgo_search_fetch` (`duckduckgo`
itself and unknown sites both map to no domain qualifier). -/
def domain_map (site : String) : Option String :=
  if site = "zhihu" then some "zhihu.com"
  else if site = "csdn" then some "csdn.net"
  else if site = "tieba" then some "tieba.baidu.com"
  else if site = "reddit" then some "reddit.com"
  else none

/-- The query string sent to the engine, with the optional `site:` scope. -/
def fullQuery (site q : String) : String :=
  match domain_map site with
  | some d => "site:" ++ d ++ " " ++ q
  | none => q

/-- Parsing of one result node of the engine's HTML results page. -/
def ddgParseResult (site q : String) (idx : Nat) (r : HNode) : Event :=
  let a :=
    match selectInside "a.result__a" r with
    | some x => some x
    | none => selectInside "a" r
  let snippet :=
    match selectInside "a.result__snippet" r with
    | some x => some x
    | none =>
      match selectInside "div.result__snippet" r with
      | some x => some x
      | none => selectInside "td.result-snippet" r
  { id := site ++ "_" ++ q ++ "_" ++ toString idx,
    source := site,
    url := match a with | some t => (t.getAttr "href").getD "" | none => "",
    title := match a with | some t => t.getText | none => "",
    content := match snippet with | some t => t.getText | none => "",
    created_at := "",
    lang := "en",
    metadata := [("query", q)] }

/-- Parsing of one fetched results page: primary result selector, legacy
fallback selector, truncation to `max_results`. -/
def ddgPageEvents (roots : List HNode) (site q : String) (max_results : Nat) : List Event :=
  let results := selectAll "div.result" roots
  let results := if results.isEmpty then selectAll "td.result-link" roots else results
  (List.enumFrom 1 (results.take max_results)).map
    (fun p => ddgParseResult site q p.1 p.2)

/-- `duckduckgo_search_fetch`: one engine request per query; a failed
query is logged and skipped (contributing no events) and the loop
continues with the remaining queries. -/
def duckduckgo_search_fetch (fetchPage : String → Except String (List HNode))
    (queries : List String) (site : String) (max_results : Nat) : List Event :=
  queries.flatMap (fun q =>
    match fetchPage (fullQuery site q) with
    | .error _ => []
    | .ok roots => ddgPageEvents roots site q max_results)

/-! ### Site defaults for `engine=browser` -/

/-- The browser-search selector block of a source configuration (opaque
CSS strings at the configuration level). -/
structure BrowserSelCfg where
  container : String := ""
  title : String := ""
  content : String := ""
  link : String := ""
  id_attr : String := ""
  created_at_attr : String := ""
  lang_attr : String := ""
  search_input : String := ""
  search_button : String := ""
  wait_for : String := ""

/-- The part of a `search_engine`/`browser_search` source configuration
that the fallback decision reads. -/
structure SourceCfg where
  search_page_url : Option String := none
  selectors : Option BrowserSelCfg := none

/-- The built-in per-site defaults table of `apply_site_defaults`. -/
def siteDefaults (site : String) : Option (String × BrowserSelCfg) :=
  if site = "zhihu" then
    some ("https://www.zhihu.com/search?q={query}",
      { container := "div.Card.SearchResult", title := ".ContentItem-title",
        content := ".RichContent-inner", link := ".ContentItem-title a",
        id_attr := "data-id", created_at_attr := "", lang_attr := "",
        search_input := "input.SearchBar-input", search_button := "",
        wait_for := ".Card.SearchResult" })
  else if site = "csdn" then
    some ("https://so.csdn.net/so/search?q={query}",
      { container := "div.result-item", title := ".result-title",
        content := ".result-desc", link := ".result-title a",
        id_attr := "data-id", created_at_attr := "", lang_attr := "",
        search_input := "input#keyword", search_button := "button[type=\x27submit\x27]",
        wait_for := "div.result-item" })
  else if site = "tieba" then
    some ("https://tieba.baidu.com/f?ie=utf-8&kw={query}",
      { container := "div.threadlist_li_right", title := "a.j_th_tit",
        content := "div.threadlist_abs", link := "a.j_th_tit",
        id_attr := "data-tid", created_at_attr := "", lang_attr := "",
        search_input := "input.tbui_aside_search_input", search_button := "a.search_btn",
        wait_for := "div.threadlist_li_right" })
  else if site = "reddit" then
    some ("https://www.reddit.com/search/?q={query}",
      { container := "div.Search__results article", title := "h3",
        content := "div[data-click-id=\x27body\x27]", link := "a[data-click-id=\x27body\x27]",
        id_attr := "", created_at_attr := "", lang_attr := "",
        search_input := "input#header-search-bar", search_button := "",
        wait_for := "div.Search__results article" })
  else none

/-- `apply_site_defaults`: fill `search_page_url` and `selectors` from the
table, returning whether defaults existed. -/
def apply_site_defaults (cfgSrc : SourceCfg) (site : String) : SourceCfg × Bool :=
  match siteDefaults site with
  | some ud =>
    ({ cfgSrc with search_page_url := some ud.1, selectors := some ud.2 }, true)
  | none => (cfgSrc, false)

/-- Python falsiness of an optional string (`None` or `""`). -/
def falsyStr : Option String → Bool
  | none => true
  | some s => s == ""

/-- The `engine=browser` dispatch of `main`: `true` when it falls back to
the DuckDuckGo engine path (`not filled or not
source_cfg.get("search_page_url")`). -/
def fallsBackToDDG (cfgSrc : SourceCfg) (site : String) : Bool :=
  let res := apply_site_defaults cfgSrc site
  !res.2 || falsyStr res.1.search_page_url

/-! ## Claims -/

/-- C2: a rule matches an event iff every condition in its `conditions`
list succeeds, evaluated in declared order with AND semantics and
short-circuit on the first failing condition; an unrecognized condition
type fails the rule (fail-closed); a rule with an empty `conditions` list
matches every event; `contains` and `equals` conditions are
case-insensitive substring/equality checks on the named field's text. -/
theorem C2_rule_matching_semantics :
    (∀ (e : Event) (r : Rule),
      rule_matches e r = true ↔ ∀ c ∈ r.conditions, condHolds e c = true) ∧
    (∀ (e : Event) (r : Rule) (c : Cond) (cs : List Cond),
      condHolds e c = false →
      rule_matches e { r with conditions := c :: cs } = false) ∧
    (∀ (e : Event) (c : Cond),
      c.ctype ≠ "contains" → c.ctype ≠ "contains_any" → c.ctype ≠ "equals" →
      c.ctype ≠ "not_contains_any" → condHolds e c = false) ∧
    (∀ (e : Event) (r : Rule), r.conditions = [] → rule_matches e r = true) ∧
    (∀ (e : Event) (f v : String) (vs : List String),
      condHolds e { ctype := "contains", field := f, value := v, values := vs } =
        pyIn (pyLower v) (eventText e f) ∧
      condHolds e { ctype := "equals", field := f, value := v, values := vs } =
        (eventText e f == pyLower v)) := by
  refine ⟨?_, ?_, ?_, ?_, ?_⟩
  · intro e r
    simp [rule_matches, List.all_eq_true]
  · intro e r c cs h
    simp [rule_matches, h]
  · intro e c h1 h2 h3 h4
    simp [condHolds, h1, h2, h3, h4]
  · intro e r h
    simp [rule_matches, h]
  · intro e f v vs
    constructor <;> simp [condHolds]

/-- A sample event used by concrete witnesses. -/
def evW : Event :=
  { id := "e1", source := "sample_forum", url := "https://example.com/question/1",
    title := "求助 论文降重", content := "帮忙看看这个", created_at := "",
    lang := "en", metadata := [] }

/-- Witness for C2 at concrete inputs. -/
theorem C2_witness :
    rule_matches evW { conditions := [] } = true ∧
    condHolds evW { ctype := "regex", field := "title", value := "x" } = false ∧
    rule_matches evW
      { conditions := [{ ctype := "contains", field := "title", value := "xyz" },
                       { ctype := "contains", field := "title", value := "求助" }] } = false :=
  ⟨C2_rule_matching_semantics.2.2.2.1 evW { conditions := [] } rfl,
   C2_rule_matching_semantics.2.2.1 evW { ctype := "regex", field := "title", value := "x" }
     (by decide) (by decide) (by decide) (by decide),
   C2_rule_matching_semantics.2.1 evW { conditions := [] }
     { ctype := "contains", field := "title", value := "xyz" }
     [{ ctype := "contains", field := "title", value := "求助" }] (by decide)⟩

/-- C7: a single-condition `not_contains_any` rule matches exactly when
the corresponding single-condition `contains_any` rule over the same
field and value set does not. -/
theorem C7_not_contains_any_is_negation :
    ∀ (e : Event) (r : Rule) (f v : String) (vs : List String),
      rule_matches e { r with conditions :=
        [{ ctype := "not_contains_any", field := f, value := v, values := vs }] } =
      !(rule_matches e { r with conditions :=
        [{ ctype := "contains_any", field := f, value := v, values := vs }] }) := by
  intro e r f v vs
  simp [rule_matches, condHolds]

/-- The explicitly configured `search_page_url` of the C5 counterexample
configuration. -/
def cfgC5 : SourceCfg :=
  { search_page_url := some "https://example.com/search?q={query}", selectors := none }

/-- C5 counterexample: for `engine=browser` with a site absent from the
defaults table (`weibo`), the adapter falls back to DuckDuckGo even
though an explicit non-empty `search_page_url` is configured — the claim
predicts the browser path would be used. -/
theorem C5_counterexample :
    falsyStr cfgC5.search_page_url = false ∧
    siteDefaults "weibo" = none ∧
    fallsBackToDDG cfgC5 "weibo" = true :=
  ⟨rfl, rfl, rfl⟩

/-- C5 (amended): the `engine=browser` adapter falls back to the
DuckDuckGo engine path exactly when the configured site has no entry in
the built-in site-defaults table, regardless of any explicitly configured
`search_page_url` (when defaults exist they overwrite the configured URL
with the table's non-empty one). -/
theorem C5_amended_fallback_iff_no_site_defaults :
    ∀ (cfgSrc : SourceCfg) (site : String),
      fallsBackToDDG cfgSrc site = !(siteDefaults site).isSome := by
  intro cfgSrc site
  unfold fallsBackToDDG apply_site_defaults
  cases h : siteDefaults site with
  | none => simp
  | some ud =>
    simp only [Option.isSome_some, Bool.not_true, Bool.false_or]
    unfold siteDefaults at h
    split_ifs at h <;>
      first
      | (injection h with h; subst h; decide)
      | (exact absurd h (by simp))

/-- C3: the extractor returns exactly one event per node matching the
`container` selector (default "article"), in document order; the `id`
comes from `id_attr` or is synthesized as `<source>_<position>` with a
1-based position; `title`, `content` and `url` default to the empty
string when their selector or the `href` attribute is absent; `lang`
defaults to "en"; extraction is a total function, so zero containers or
missing sub-elements yield events (or an empty list) rather than an
error. -/
theorem C3_selector_extractor :
    ∀ (roots : List HNode) (cfg : SelectorsCfg) (name : String),
      (parse_events_with_selectors roots cfg name).length =
        (selectAll (cfg.container.getD "article") roots).length ∧
      (∀ (i : Nat) (h1 : i < (parse_events_with_selectors roots cfg name).length)
          (h2 : i < (selectAll (cfg.container.getD "article") roots).length),
        (parse_events_with_selectors roots cfg name).get ⟨i, h1⟩ =
          eventOfContainer cfg name (1 + i)
            ((selectAll (cfg.container.getD "article") roots).get ⟨i, h2⟩)) ∧
      (∀ (idx : Nat) (c : HNode),
        (eventOfContainer cfg name idx c).source = name ∧
        (c.getAttr (cfg.id_attr.getD "data-id") = none →
          (eventOfContainer cfg name idx c).id = name ++ "_" ++ toString idx) ∧
        (selectInside (cfg.link.getD "a") c = none →
          (eventOfContainer cfg name idx c).url = "") ∧
        (∀ lt, selectInside (cfg.link.getD "a") c = some lt →
          lt.getAttr "href" = none → (eventOfContainer cfg name idx c).url = "") ∧
        (selectInside (cfg.title.getD "h2") c = none →
          (eventOfContainer cfg name idx c).title = "") ∧
        (selectInside (cfg.content.getD "p") c = none →
          (eventOfContainer cfg name idx c).content = "") ∧
        (c.getAttr (cfg.lang_attr.getD "data-lang") = none →
          (eventOfContainer cfg name idx c).lang = "en")) ∧
      (selectAll (cfg.container.getD "article") roots = [] →
        parse_events_with_selectors roots cfg name = []) := by
  intro roots cfg name
  refine ⟨?_, ?_, ?_, ?_⟩
  · simp [parse_events_with_selectors]
  · intro i h1 h2
    simp [parse_events_with_selectors, List.getElem_enumFrom]
  · intro idx c
    refine ⟨rfl, ?_, ?_, ?_, ?_, ?_, ?_⟩
    · intro h
      simp [eventOfContainer, h]
    · intro h
      simp [eventOfContainer, h]
    · intro lt h hh
      simp [eventOfContainer, h, hh]
    · intro h
      simp [eventOfContainer, h]
    · intro h
      simp [eventOfContainer, h]
    · intro h
      simp [eventOfContainer, h]
  · intro h
    simp [parse_events_with_selectors, h]

/-- A concrete two-article document for the C3 witness: the first article
has an id attribute, title, content and link; the second is empty. -/
def htmlW : List HNode :=
  [HNode.elem "body" [] [
    HNode.elem "article" [("data-id", "a1")] [
      HNode.elem "h2" [] [HNode.textNode "求助 论文降重"],
      HNode.elem "p" [] [HNode.textNode "帮忙看看这个"],
      HNode.elem "a" [("href", "https://example.com/p/1")] [HNode.textNode "link"]],
    HNode.elem "article" [] []]]

/-- Witness for C3: the sample document yields two events; the second
(element without id attribute or sub-elements) gets a synthesized id,
empty url/title/content and default language. -/
theorem C3_witness :
    (parse_events_with_selectors htmlW {} "sample_forum").length = 2 ∧
    (eventOfContainer {} "sample_forum" 2 (HNode.elem "article" [] [])).id =
      "sample_forum" ++ "_" ++ toString 2 ∧
    (eventOfContainer {} "sample_forum" 2 (HNode.elem "article" [] [])).url = "" ∧
    (eventOfContainer {} "sample_forum" 2 (HNode.elem "article" [] [])).lang = "en" := by
  refine ⟨?_, ?_, ?_, ?_⟩
  · rw [(C3_selector_extractor htmlW {} "sample_forum").1]
    rfl
  · exact ((C3_selector_extractor htmlW {} "sample_forum").2.2.1 2
      (HNode.elem "article" [] [])).2.1 rfl
  · exact ((C3_selector_extractor htmlW {} "sample_forum").2.2.1 2
      (HNode.elem "article" [] [])).2.2.1 rfl
  · exact ((C3_selector_extractor htmlW {} "sample_forum").2.2.1 2
      (HNode.elem "article" [] [])).2.2.2.2.2.2 rfl

/-- The fallback template renders to the generic greeting around the
event's title. -/
theorem pyFormat_fallback (e : Event) :
    pyFormat fallbackTemplate (eventSubst e) =
      .ok ("Hello, saw your post \x27" ++ e.title ++ "\x27.") := by
  simp [pyFormat, fallbackTemplate, fmtScan, fmtScanName, eventSubst, braceL, braceR]
  rfl

/-- If the name scan of a format string succeeds and one of the collected
names is outside `subst`, the format scan raises. -/
theorem fmtScan_error_of_unknown (subst : String → Option String) :
    ∀ (k : Nat) (cs : List Char), cs.length ≤ k →
      (∀ ns n, fmtNames cs = some ns → n ∈ ns → subst n = none →
        ∃ msg, fmtScan subst cs = .error msg) ∧
      (∀ acc ns n, fmtNamesAcc acc cs = some ns → n ∈ ns → subst n = none →
        ∃ msg, fmtScanName subst acc cs = .error msg) := by
  intro k
  induction k with
  | zero =>
    intro cs hlen
    have hnil : cs = [] := List.length_eq_zero.mp (Nat.le_zero.mp hlen)
    subst hnil
    constructor
    · intro ns n hns hn _
      simp [fmtNames] at hns
      subst hns
      simp at hn
    · intro acc ns n hns _ _
      simp [fmtNamesAcc] at hns
  | succ k ih =>
    intro cs hlen
    rcases cs with _ | ⟨c, cs1⟩
    · constructor
      · intro ns n hns hn _
        simp [fmtNames] at hns
        subst hns
        simp at hn
      · intro acc ns n hns _ _
        simp [fmtNamesAcc] at hns
    · have hlen1 : cs1.length ≤ k := by
        simp at hlen
        omega
      constructor
      · intro ns n hns hn hsub
        by_cases hL : c = braceL
        · subst hL
          rcases cs1 with _ | ⟨c2, cs2⟩
          · simp [fmtNames] at hns
          · by_cases hL2 : c2 = braceL
            · subst hL2
              rw [fmtNames] at hns
              simp at hns
              obtain ⟨msg, hmsg⟩ :=
                ((ih cs2 (by simp at hlen1 ⊢; omega)).1) ns n hns hn hsub
              refine ⟨msg, ?_⟩
              rw [fmtScan]
              simp [hmsg]
            · rw [fmtNames] at hns
              simp [hL2] at hns
              obtain ⟨msg, hmsg⟩ := ((ih (c2 :: cs2) hlen1).2) [] ns n hns hn hsub
              refine ⟨msg, ?_⟩
              rw [fmtScan]
              simp [hL2, hmsg]
        · by_cases hR : c = braceR
          · subst hR
            rcases cs1 with _ | ⟨c2, cs2⟩
            · simp [fmtNames] at hns
            · by_cases hR2 : c2 = braceR
              · subst hR2
                rw [fmtNames] at hns
                simp [(by decide : ¬braceR = braceL)] at hns
                obtain ⟨msg, hmsg⟩ :=
                  ((ih cs2 (by simp at hlen1 ⊢; omega)).1) ns n hns hn hsub
                refine ⟨msg, ?_⟩
                rw [fmtScan]
                simp [(by decide : ¬braceR = braceL), hmsg]
              · rw [fmtNames] at hns
                simp [(by decide : ¬braceR = braceL), hR2] at hns
          · rw [fmtNames.eq_def] at hns
            simp [hL, hR] at hns
            obtain ⟨msg, hmsg⟩ := ((ih cs1 hlen1).1) ns n hns hn hsub
            refine ⟨msg, ?_⟩
            rw [fmtScan.eq_def]
            simp [hL, hR, hmsg]
      · intro acc ns n hns hn hsub
        by_cases hR : c = braceR
        · subst hR
          rw [fmtNamesAcc] at hns
          simp at hns
          obtain ⟨ns1, hns1, hcons⟩ := hns
          subst hcons
          rcases List.mem_cons.mp hn with hn | hn
          · subst hn
            refine ⟨"KeyError: " ++ String.mk acc.reverse, ?_⟩
            rw [fmtScanName]
            simp [hsub]
          · obtain ⟨msg, hmsg⟩ := ((ih cs1 hlen1).1) ns1 n hns1 hn hsub
            rcases hs : subst (String.mk acc.reverse) with _ | v
            · refine ⟨"KeyError: " ++ String.mk acc.reverse, ?_⟩
              rw [fmtScanName]
              simp [hs]
            · refine ⟨msg, ?_⟩
              rw [fmtScanName]
              simp [hs, hmsg]
        · rw [fmtNamesAcc] at hns
          simp [hR] at hns
          obtain ⟨msg, hmsg⟩ := ((ih cs1 hlen1).2) (c :: acc) ns n hns hn hsub
          refine ⟨msg, ?_⟩
          rw [fmtScanName]
          simp [hR, hmsg]

/-- C9: an unknown (or absent) template id degrades to the generic
fallback greeting and rendering succeeds; but if the selected template
string references a placeholder other than `title`, `content`, `url`,
`source`, strict rendering raises instead of producing partial output. -/
theorem C9_render_fallback_and_strictness :
    (∀ (e : Event) (r : Rule) (templates : List (String × String)),
      (∀ tid, r.template = some tid → templatesLookup templates tid = none) →
      generate_draft e r templates =
        .ok { event_id := e.id, rule_id := r.id, lang := r.target_lang.getD e.lang,
              draft_text := "Hello, saw your post \x27" ++ e.title ++ "\x27." }) ∧
    (∀ (e : Event) (r : Rule) (templates : List (String × String)) (ns : List String) (n : String),
      fmtNames (selectedTemplate r templates).data = some ns → n ∈ ns →
      n ≠ "title" → n ≠ "content" → n ≠ "url" → n ≠ "source" →
      ∃ msg, generate_draft e r templates = .error msg) := by
  constructor
  · intro e r templates hunknown
    have hsel : selectedTemplate r templates = fallbackTemplate := by
      rcases hr : r.template with _ | tid
      · simp [selectedTemplate, hr]
      · simp [selectedTemplate, hr, hunknown tid hr]
    simp [generate_draft, hsel, pyFormat_fallback]
  · intro e r templates ns n hns hn h1 h2 h3 h4
    have hsub : eventSubst e n = none := by
      simp [eventSubst, h1, h2, h3, h4]
    obtain ⟨msg, hmsg⟩ :=
      ((fmtScan_error_of_unknown (eventSubst e)
        (selectedTemplate r templates).data.length
        (selectedTemplate r templates).data (Nat.le_refl _)).1) ns n hns hn hsub
    exact ⟨msg, by simp [generate_draft, pyFormat, hmsg]⟩

/-- The template table of the C9 witness. -/
def tsW : List (String × String) := [("t1", "Hi \x7bnickname\x7d")]

/-- Witness for C9: an unknown template id yields the fallback greeting
for the sample event, and a template referencing `nickname` makes
rendering fail. -/
theorem C9_witness :
    generate_draft evW { template := some "missing" } tsW =
      .ok { event_id := evW.id, rule_id := none, lang := "en",
            draft_text := "Hello, saw your post \x27" ++ evW.title ++ "\x27." } ∧
    ∃ msg, generate_draft evW { template := some "t1" } tsW = .error msg := by
  constructor
  · exact C9_render_fallback_and_strictness.1 evW { template := some "missing" } tsW
      (by intro tid h; injection h with h; subst h; rfl)
  · refine C9_render_fallback_and_strictness.2 evW { template := some "t1" } tsW
      ["nickname"] "nickname" ?_ (by simp) (by decide) (by decide) (by decide) (by decide)
    simp [selectedTemplate, tsW, templatesLookup, fmtNames, fmtNamesAcc, braceL, braceR]

/-- The artifact written for cycle `c` carries `cycle = c`. -/
theorem cycleOutputOf_cycle (cfg : Config) (c : Nat) (evs : List Event) (out : CycleOutput)
    (h : cycleOutputOf cfg c evs = .ok out) : out.cycle = c := by
  unfold cycleOutputOf at h
  rcases hp : processEvents cfg.rules cfg.templates evs with _ | ⟨bs, ds, m⟩
  · rw [hp] at h
    exact absurd h (by simp)
  · rw [hp] at h
    injection h with h
    rw [← h]

/-- An exception-free run from cycle counter `cycle` performs the
remaining cycles `cycle+1 .. numCycles` and no others. -/
theorem runFrom_ok (cfg : Config) (evF : Nat → List Event) (outF : Nat → CycleOutput)
    (hbody : ∀ c, cycleOutputOf cfg c (evF c) = .ok (outF c)) :
    ∀ (n cycle : Nat), numCycles cfg - cycle = n → cycle < numCycles cfg →
      runFrom cfg (fun c => .ok (evF c)) cycle =
        (okTrace cfg.interval_seconds ((List.range' (cycle + 1) n).map outF), none) := by
  intro n
  induction n with
  | zero =>
    intro cycle h1 h2
    omega
  | succ n ihn =>
    intro cycle h1 h2
    rw [runFrom]
    simp only [hbody (cycle + 1)]
    by_cases hstop : cfg.repeatFlag = false ∨ cfg.max_cycles ≤ cycle + 1
    · rw [dif_pos hstop]
      have hn0 : n = 0 := by
        unfold numCycles at h1 h2
        rcases hstop with hs | hs
        · rw [if_neg (by simp [hs])] at h1 h2
          omega
        · rcases hrep : cfg.repeatFlag with _ | _
          · rw [if_neg (by simp [hrep])] at h1 h2
            omega
          · rw [if_pos (by simp [hrep])] at h1 h2
            omega
      subst hn0
      have hc := cycleOutputOf_cycle cfg (cycle + 1) (evF (cycle + 1)) (outF (cycle + 1))
        (hbody (cycle + 1))
      simp [List.range', okTrace, hc]
    · rw [dif_neg hstop]
      push_neg at hstop
      have hlt : cycle + 1 < numCycles cfg := by
        unfold numCycles
        rw [if_pos (by simp [hstop.1])]
        omega
      rw [ihn (cycle + 1) (by omega) hlt]
      have hn1 : 1 ≤ n := by omega
      rcases n with _ | m
      · omega
      · have hc := cycleOutputOf_cycle cfg (cycle + 1) (evF (cycle + 1)) (outF (cycle + 1))
          (hbody (cycle + 1))
        simp [List.range'_succ, okTrace, hc]

/-- C1: with a fetch that succeeds on every cycle (and an event list the
pipeline can render), the scheduler performs cycles 1, 2, ...,
terminating exactly when `repeat` is disabled or the cycle count has
reached `max_cycles` (`numCycles` cycles in total: `max max_cycles 1`
with repeat on, one cycle otherwise); the trace is one fetch attempt and
one artifact write per cycle, with `cycle` equal to the 1-based cycle
number and one `interval_seconds` sleep between consecutive cycles; in
particular with `repeat := true, max_cycles := 3` exactly three writes
occur (cycles 1, 2, 3). -/
theorem C1_cycle_scheduler :
    ∀ (cfg : Config) (evF : Nat → List Event) (outF : Nat → CycleOutput),
      (∀ c, cycleOutputOf cfg c (evF c) = .ok (outF c)) →
      (runScheduler cfg (fun c => .ok (evF c)) =
        (okTrace cfg.interval_seconds ((List.range' 1 (numCycles cfg)).map outF), none) ∧
       (∀ c, (outF c).cycle = c) ∧
       numCycles cfg = (if cfg.repeatFlag then max cfg.max_cycles 1 else 1) ∧
       numCycles { cfg with repeatFlag := true, max_cycles := 3 } = 3) := by
  intro cfg evF outF hbody
  refine ⟨?_, ?_, rfl, ?_⟩
  · unfold runScheduler
    have h0 : 0 < numCycles cfg := by
      unfold numCycles
      split <;> omega
    simpa using runFrom_ok cfg evF outF hbody (numCycles cfg) 0 (by omega) h0
  · intro c
    exact cycleOutputOf_cycle cfg c (evF c) (outF c) (hbody c)
  · unfold numCycles
    simp

/-- The concrete scenario configuration: repeat on, three cycles, a
5-second interval. -/
def cfg3 : Config := { repeatFlag := true, max_cycles := 3, interval_seconds := 5 }

/-- The artifact the empty-source scenario writes on cycle `c`. -/
def outW (c : Nat) : CycleOutput :=
  { language := "en", cycle := c, total_events := 0, matched_events := 0,
    events := [], drafts := [] }

/-- Witness for C1: with `repeat=true, max_cycles=3` and an empty event
stream, the run is exactly three fetch-attempt/write pairs with `cycle`
fields 1, 2, 3, separated by two sleeps. -/
theorem C1_witness :
    runScheduler cfg3 (fun _ => .ok []) =
      ([Act.attempt 1, Act.write (outW 1), Act.sleep 5,
        Act.attempt 2, Act.write (outW 2), Act.sleep 5,
        Act.attempt 3, Act.write (outW 3)], none) := by
  have h := (C1_cycle_scheduler cfg3 (fun _ => []) outW (fun _ => rfl)).1
  rw [h]
  rfl

/-- The C4 counterexample configuration (repeat on, three cycles). -/
def cfgC4 : Config := { repeatFlag := true, max_cycles := 3, interval_seconds := 5 }

/-- C4 counterexample: when the first cycle's fetch fails, the run stops
immediately with the propagated error — it writes nothing, does not
sleep, and never attempts cycle 2, contradicting the claim that the
scheduler sleeps and then attempts the next cycle. -/
theorem C4_counterexample :
    runScheduler cfgC4 (fun _ => .error "HTTPError: 500") =
      ([Act.attempt 1], some "HTTPError: 500") ∧
    Act.sleep 5 ∉ (runScheduler cfgC4 (fun _ => .error "HTTPError: 500")).1 ∧
    Act.attempt 2 ∉ (runScheduler cfgC4 (fun _ => .error "HTTPError: 500")).1 ∧
    (∀ o, Act.write o ∉ (runScheduler cfgC4 (fun _ => .error "HTTPError: 500")).1) := by
  have h : runScheduler cfgC4 (fun _ => .error "HTTPError: 500") =
      ([Act.attempt 1], some "HTTPError: 500") := by
    rw [runScheduler, runFrom]
  refine ⟨h, ?_, ?_, ?_⟩ <;> rw [h] <;> simp

/-- C4 (amended): when a cycle's fetch fails with an adapter-level error,
that cycle writes no output artifact and the exception propagates out of
the loop: the run terminates at once with the error, with no sleep and no
attempt at a further cycle. -/
theorem C4_amended_failed_fetch_aborts_run :
    ∀ (cfg : Config) (fetchF : Nat → Except String (List Event)) (cycle : Nat) (e : String),
      fetchF (cycle + 1) = .error e →
      runFrom cfg fetchF cycle = ([Act.attempt (cycle + 1)], some e) := by
  intro cfg fetchF cycle e h
  rw [runFrom, h]

/-- Witness for C4 (amended) at a concrete failing fetch. -/
theorem C4_amended_witness :
    runFrom cfgC4 (fun _ => .error "boom") 0 = ([Act.attempt 1], some "boom") :=
  C4_amended_failed_fetch_aborts_run cfgC4 (fun _ => .error "boom") 0 "boom" rfl

/-- The rule loop counts exactly one `matched_events` increment per draft
it emits, and emits one draft per enabled matching rule. -/
theorem matchDrafts_ok (e : Event) (templates : List (String × String)) :
    ∀ (rules : List Rule) (ds : List Draft) (m : Nat),
      matchDrafts e templates rules = .ok (ds, m) →
      m = ds.length ∧
      ds.length = (rules.filter (fun r => r.enabled && rule_matches e r)).length := by
  intro rules
  induction rules with
  | nil =>
    intro ds m h
    simp [matchDrafts] at h
    obtain ⟨h1, h2⟩ := h
    subst h1
    subst h2
    simp
  | cons r rs ih =>
    intro ds m h
    rw [matchDrafts] at h
    by_cases he : r.enabled = false
    · rw [if_pos he] at h
      have := ih ds m h
      simpa [List.filter_cons, he] using this
    · rw [if_neg he] at h
      have he2 : r.enabled = true := by
        rcases hb : r.enabled
        · exact absurd hb he
        · rfl
      by_cases hm : rule_matches e r
      · rw [if_pos hm] at h
        rcases hg : generate_draft e r templates with msg | d
        · rw [hg] at h
          exact absurd h (by simp)
        · rw [hg] at h
          rcases hrec : matchDrafts e templates rs with msg | p
          · rw [hrec] at h
            exact absurd h (by simp)
          · rcases p with ⟨ds1, m1⟩
            rw [hrec] at h
            injection h with h
            injection h with hds hm1
            subst hds
            subst hm1
            have := ih ds1 m1 hrec
            simp [List.filter_cons, he2, hm]
            omega
      · rw [if_neg hm] at h
        have := ih ds m h
        have hmf : rule_matches e r = false := by
          rcases hb : rule_matches e r
          · rfl
          · exact absurd hb hm
        simpa [List.filter_cons, he2, hmf] using this

/-- The event loop persists exactly the filter-passing events (projected
to brief form, in order) and counts one match per draft. -/
theorem processEvents_ok (rules : List Rule) (templates : List (String × String)) :
    ∀ (events : List Event) (bs : List BriefEvent) (ds : List Draft) (m : Nat),
      processEvents rules templates events = .ok (bs, ds, m) →
      bs = (events.filter passesFilter).map briefOf ∧ m = ds.length := by
  intro events
  induction events with
  | nil =>
    intro bs ds m h
    simp [processEvents] at h
    obtain ⟨h1, h2, h3⟩ := h
    subst h1
    subst h2
    subst h3
    simp
  | cons ev rest ih =>
    intro bs ds m h
    rw [processEvents] at h
    by_cases hp : passesFilter ev
    · rw [if_pos hp] at h
      rcases hmd : matchDrafts ev templates rules with msg | p1
      · rw [hmd] at h
        exact absurd h (by simp)
      · rcases p1 with ⟨ds1, m1⟩
        rw [hmd] at h
        rcases hrec : processEvents rules templates rest with msg | p2
        · rw [hrec] at h
          exact absurd h (by simp)
        · rcases p2 with ⟨bs2, ds2, m2⟩
          rw [hrec] at h
          injection h with h
          injection h with hbs h
          injection h with hds hm
          subst hbs
          subst hds
          subst hm
          obtain ⟨hb2, hm2⟩ := ih bs2 ds2 m2 hrec
          obtain ⟨hm1, _⟩ := matchDrafts_ok ev templates rules ds1 m1 hmd
          constructor
          · simp [List.filter_cons, hp, hb2]
          · simp [hm1, hm2]
    · rw [if_neg hp] at h
      have hpf : passesFilter ev = false := by
        rcases hb : passesFilter ev
        · rfl
        · exact absurd hb hp
      obtain ⟨hb, hm⟩ := ih bs ds m h
      constructor
      · simp [List.filter_cons, hpf, hb]
      · exact hm

/-- C10: in every cycle's persisted output, `matched_events` equals the
length of `drafts`: it counts matched (event, rule) pairs, and a single
event matched by k enabled rules contributes k drafts. -/
theorem C10_matched_events_counts_pairs :
    (∀ (cfg : Config) (c : Nat) (evs : List Event) (out : CycleOutput),
      cycleOutputOf cfg c evs = .ok out →
      out.matched_events = out.drafts.length) ∧
    (∀ (e : Event) (templates : List (String × String)) (rules : List Rule)
        (ds : List Draft) (m : Nat),
      matchDrafts e templates rules = .ok (ds, m) →
      m = ds.length ∧
      ds.length = (rules.filter (fun r => r.enabled && rule_matches e r)).length) := by
  constructor
  · intro cfg c evs out h
    unfold cycleOutputOf at h
    rcases hp : processEvents cfg.rules cfg.templates evs with msg | p
    · rw [hp] at h
      exact absurd h (by simp)
    · rcases p with ⟨bs, ds, m⟩
      rw [hp] at h
      injection h with h
      obtain ⟨_, hm⟩ := processEvents_ok cfg.rules cfg.templates evs bs ds m hp
      rw [← h]
      exact hm
  · exact fun e templates rules ds m h => matchDrafts_ok e templates rules ds m h

/-- C8: an event whose URL host contains a blacklisted domain never
passes the filter (regardless of its path or title), hence never appears
in `events_brief`; conversely `events_brief` is exactly the
filter-passing events in order — independent of the rules — so every
event passing both checks appears whether or not any rule matches it. -/
theorem C8_blacklist_and_brief :
    (∀ (rules : List Rule) (templates : List (String × String)) (events : List Event)
        (bs : List BriefEvent) (ds : List Draft) (m : Nat),
      processEvents rules templates events = .ok (bs, ds, m) →
      bs = (events.filter passesFilter).map briefOf) ∧
    (∀ ev : Event, blacklist.any (fun bad => pyIn bad (hostOf ev)) = true →
      passesFilter ev = false) ∧
    (∀ (rules : List Rule) (templates : List (String × String)) (events : List Event)
        (bs : List BriefEvent) (ds : List Draft) (m : Nat),
      processEvents rules templates events = .ok (bs, ds, m) →
      ∀ ev ∈ events, passesFilter ev = true → briefOf ev ∈ bs) := by
  refine ⟨?_, ?_, ?_⟩
  · intro rules templates events bs ds m h
    exact (processEvents_ok rules templates events bs ds m h).1
  · intro ev hbad
    simp [passesFilter, hbad]
  · intro rules templates events bs ds m h ev hev hp
    rw [(processEvents_ok rules templates events bs ds m h).1]
    exact List.mem_map_of_mem briefOf (List.mem_filter.mpr ⟨hev, hp⟩)

/-- A blacklisted-host event whose path would satisfy the allowlist. -/
def evBad : Event :=
  { id := "e2", source := "s", url := "https://www.qq.com/question/1",
    title := "help me", content := "", created_at := "", lang := "en", metadata := [] }

/-- Witness for C8: with one clean and one blacklisted event, only the
clean one is persisted, even though the blacklisted one's path matches
the allowlist. -/
theorem C8_witness :
    ([briefOf evW] : List BriefEvent) = ([evW, evBad].filter passesFilter).map briefOf ∧
    passesFilter evBad = false ∧
    (keep_patterns.any (fun pat => pyIn pat (pathOf evBad))) = true ∧
    briefOf evW ∈ ([briefOf evW] : List BriefEvent) := by
  have h : processEvents [] [] [evW, evBad] = .ok ([briefOf evW], [], 0) := rfl
  exact ⟨C8_blacklist_and_brief.1 [] [] [evW, evBad] _ _ _ h,
         C8_blacklist_and_brief.2.1 evBad (by decide),
         by decide,
         C8_blacklist_and_brief.2.2 [] [] [evW, evBad] _ _ _ h evW (by simp) (by decide)⟩

/-- A rule with no conditions bound to template id `t`. -/
def rW : Rule := { template := some "t" }

/-- The draft each matching rule produces for the sample event. -/
def dW : Draft := { event_id := "e1", rule_id := none, lang := "en", draft_text := "Hi" }

/-- Witness for C10: one event matched by two enabled rules contributes
two to the matched counter and produces two drafts. -/
theorem C10_witness :
    (2 : Nat) = ([dW, dW] : List Draft).length ∧
    ([dW, dW] : List Draft).length =
      ([rW, rW].filter (fun r => r.enabled && rule_matches evW r)).length := by
  have h : matchDrafts evW [("t", "Hi")] [rW, rW] = .ok ([dW, dW], 2) := by
    simp [matchDrafts, rule_matches, generate_draft, selectedTemplate, templatesLookup,
      pyFormat, fmtScan, eventSubst, dW, rW, evW, braceL, braceR]
  exact C10_matched_events_counts_pairs.2 evW [("t", "Hi")] [rW, rW] [dW, dW] 2 h

/-- The fallible part of one `http_html_search` query iteration: URL
formatting followed by the GET. -/
def httpSearchStep (fetchF : String → Except String (List HNode)) (tpl q : String) :
    Except String (List HNode) :=
  match pyFormat tpl (fun n => if n = "query" then some q else none) with
  | .error msg => .error msg
  | .ok url => fetchF url

/-- One unfolding step of `http_html_search_fetch` through
`httpSearchStep`. -/
theorem http_search_cons (fetchF : String → Except String (List HNode)) (tpl : String)
    (cfg : SelectorsCfg) (name q : String) (qs : List String) :
    http_html_search_fetch fetchF tpl cfg name (q :: qs) =
      match httpSearchStep fetchF tpl q with
      | .error msg => .error msg
      | .ok roots =>
        match http_html_search_fetch fetchF tpl cfg name qs with
        | .error msg => .error msg
        | .ok rest =>
          .ok (((parse_events_with_selectors roots cfg name).map
            (fun ev => setMeta ev "query" q)) ++ rest) := by
  rw [http_html_search_fetch, httpSearchStep]
  rcases pyFormat tpl (fun n => if n = "query" then some q else none) with msg | url
  · rfl
  · rfl

/-- C6: failure isolation differs between the two multi-query adapters.
For `http_html_search` a failing query aborts the whole fetch (the result
is an error, so events of earlier queries are discarded); for
`search_engine`/duckduckgo a failing query is skipped and the remaining
queries' events are aggregated as if the failing query were absent. -/
theorem C6_failure_isolation_asymmetry :
    (∀ (fetchF : String → Except String (List HNode)) (tpl : String) (cfg : SelectorsCfg)
        (name : String) (queries : List String),
      (∃ q ∈ queries, ∃ e, httpSearchStep fetchF tpl q = .error e) →
      ∃ msg, http_html_search_fetch fetchF tpl cfg name queries = .error msg) ∧
    (∀ (fetchPage : String → Except String (List HNode)) (queries1 queries2 : List String)
        (q site : String) (max_results : Nat),
      (∃ e, fetchPage (fullQuery site q) = .error e) →
      duckduckgo_search_fetch fetchPage (queries1 ++ q :: queries2) site max_results =
        duckduckgo_search_fetch fetchPage (queries1 ++ queries2) site max_results) := by
  constructor
  · intro fetchF tpl cfg name queries
    induction queries with
    | nil =>
      intro h
      simp at h
    | cons q0 qs ih =>
      intro h
      rw [http_search_cons]
      rcases hstep : httpSearchStep fetchF tpl q0 with msg | roots
      · exact ⟨msg, rfl⟩
      · have htail : ∃ q ∈ qs, ∃ e, httpSearchStep fetchF tpl q = .error e := by
          rcases h with ⟨q, hq, e, he⟩
          rcases List.mem_cons.mp hq with hq | hq
          · subst hq
            rw [hstep] at he
            exact absurd he (by simp)
          · exact ⟨q, hq, e, he⟩
        obtain ⟨msg, hmsg⟩ := ih htail
        rw [hmsg]
        exact ⟨msg, rfl⟩
  · intro fetchPage queries1 queries2 q site max_results h
    rcases h with ⟨e, he⟩
    simp [duckduckgo_search_fetch, he]

/-- Witness for C6: a failing query makes the whole `http_html_search`
fetch error, while the duckduckgo adapter with one good and one failing
query returns exactly the good query's events. -/
theorem C6_witness :
    (∃ msg, http_html_search_fetch (fun _ => .error "HTTPError: 500")
      "https://x.example/search?q=\x7bquery\x7d" {} "s" ["a"] = .error msg) ∧
    duckduckgo_search_fetch
        (fun s => if s = "bad" then .error "timeout" else .ok []) ["good", "bad"]
        "duckduckgo" 10 =
      duckduckgo_search_fetch
        (fun s => if s = "bad" then .error "timeout" else .ok []) ["good"]
        "duckduckgo" 10 := by
  constructor
  · refine C6_failure_isolation_asymmetry.1 (fun _ => .error "HTTPError: 500")
      "https://x.example/search?q=\x7bquery\x7d" {} "s" ["a"] ⟨"a", by simp, ?_⟩
    refine ⟨"HTTPError: 500", ?_⟩
    have hfmt : pyFormat "https://x.example/search?q=\x7bquery\x7d"
        (fun n => if n = "query" then some "a" else none) =
        .ok "https://x.example/search?q=a" := by
      simp [pyFormat, fmtScan, fmtScanName, braceL, braceR]
    simp [httpSearchStep, hfmt]
  · exact C6_failure_isolation_asymmetry.2
      (fun s => if s = "bad" then .error "timeout" else .ok []) ["good"] [] "bad"
      "duckduckgo" 10 ⟨"timeout", by simp [fullQuery, domain_map]⟩

end Monitor
